import Mathlib

/-!
Shallow embedding of the two scripts of the repository
`BJTUselfService-AppleDevice`:

  * `generate_ios_icons.py` — resizes one source image into 22 iOS/macOS
    icon PNGs;
  * `convert_captcha_model.py` — loads a TorchScript model, traces it and
    converts it to a Core ML package.

Both scripts are sequences of calls into third-party libraries (PIL,
torch, coremltools) plus filesystem effects.  We model each run as a pure
function from an environment (the outcomes of the fallible library calls
and the relevant filesystem facts) to a trace of effect events, mirroring
the Python control flow line by line.
-/

/-- A PIL in-memory image: its color mode string and pixel dimensions.
Pixel contents are irrelevant to every property considered here. -/
structure Img where
  mode : String
  width : Nat
  height : Nat
deriving Repr, DecidableEq

/-- PIL `img.convert(m)`: same pixels reinterpreted, new mode. -/
def Img.convert (img : Img) (m : String) : Img :=
  { img with mode := m }

/-- PIL `img.resize((w, h), LANCZOS)`: the result has exactly the requested
dimensions (absolute targets, no letterboxing) and keeps the mode. -/
def Img.resize (img : Img) (w h : Nat) : Img :=
  { img with width := w, height := h }

/-- PIL color modes that carry an alpha channel (PIL semantics: the modes
whose bands include `A` or premultiplied `a`). -/
def modeHasAlpha (m : String) : Bool :=
  m = "RGBA" || m = "LA" || m = "PA" || m = "RGBa" || m = "La"

/-- One observable effect of a script run: a console print, a directory
creation, a library call, or a file write. -/
inductive Ev where
  | printMsg (s : String)
  | mkdirs (dir : String)
  | openImg (path : String)
  | convertMode (m : String)
  | writePng (path : String) (img : Img)
  | loadModel (path : String)
  | evalCall
  | forwardCall
  | traceModel
  | convertModel
  | savePackage (path : String)
deriving Repr, DecidableEq

/-- Constant `android_icon_path` of `generate_ios_icons.py`. -/
def android_icon_path : String :=
  "AndroidOrigin/app/src/main/res/mipmap-xxxhdpi/ic_launcher.webp"

/-- Constant `ios_appicon_dir` of `generate_ios_icons.py`. -/
def ios_appicon_dir : String :=
  "BJTUselfServiceApple/BJTUselfServiceApple/Assets.xcassets/AppIcon.appiconset"

/-- The `ios_icon_sizes` dict of `generate_ios_icons.py`, in declaration
order (Python dicts iterate in insertion order). -/
def ios_icon_sizes : List (String × Nat × Nat) := [
  ("Icon-App-20x20@2x.png", 40, 40),
  ("Icon-App-20x20@3x.png", 60, 60),
  ("Icon-App-29x29@2x.png", 58, 58),
  ("Icon-App-29x29@3x.png", 87, 87),
  ("Icon-App-40x40@2x.png", 80, 80),
  ("Icon-App-40x40@3x.png", 120, 120),
  ("Icon-App-60x60@2x.png", 120, 120),
  ("Icon-App-60x60@3x.png", 180, 180),
  ("Icon-App-76x76@1x.png", 76, 76),
  ("Icon-App-76x76@2x.png", 152, 152),
  ("Icon-App-83.5x83.5@2x.png", 167, 167),
  ("Icon-App-1024x1024@1x.png", 1024, 1024),
  ("Icon-Mac-16x16@1x.png", 16, 16),
  ("Icon-Mac-16x16@2x.png", 32, 32),
  ("Icon-Mac-32x32@1x.png", 32, 32),
  ("Icon-Mac-32x32@2x.png", 64, 64),
  ("Icon-Mac-128x128@1x.png", 128, 128),
  ("Icon-Mac-128x128@2x.png", 256, 256),
  ("Icon-Mac-256x256@1x.png", 256, 256),
  ("Icon-Mac-256x256@2x.png", 512, 512),
  ("Icon-Mac-512x512@1x.png", 512, 512),
  ("Icon-Mac-512x512@2x.png", 1024, 1024)]

/-- Environment of one `generate_icons()` run: whether the source file
exists, what `Image.open` yields on it (`none` models a raise), and the
files already present in the output directory from earlier runs (the
script never reads them; the field exists so independence from prior
outputs is expressible). -/
structure IconEnv where
  sourceExists : Bool
  openResult : Option Img
  existingFiles : List String
deriving Repr, DecidableEq

/-- Function `generate_icons()` of `generate_ios_icons.py`, as a trace of effects.
Mirrors the source: existence check, `os.makedirs(..., exist_ok=True)`,
`Image.open` inside `try`, mode conversion when `img.mode != 'RGBA'`,
then one resize-and-save per table entry, in table order. -/
def generate_icons (env : IconEnv) : List Ev :=
  if !env.sourceExists then
    [Ev.printMsg ("❌ 错误: 找不到 Android 图标: " ++ android_icon_path)]
  else
    [Ev.mkdirs ios_appicon_dir,
     Ev.printMsg "📱 开始从 Android 图标生成 iOS AppIcon...",
     Ev.printMsg ("源文件: " ++ android_icon_path)] ++
    match env.openResult with
    | none =>
        [Ev.openImg android_icon_path, Ev.printMsg "❌ 错误: (异常)"]
    | some img =>
        let conv :=
          if img.mode ≠ "RGBA" then [Ev.convertMode "RGBA"] else []
        let img2 := if img.mode ≠ "RGBA" then img.convert "RGBA" else img
        [Ev.openImg android_icon_path] ++ conv ++
        [Ev.printMsg ("源图标尺寸: " ++ toString img.width ++ "x" ++
           toString img.height)] ++
        (ios_icon_sizes.flatMap fun e =>
          [Ev.writePng (ios_appicon_dir ++ "/" ++ e.1)
             (img2.resize e.2.1 e.2.2),
           Ev.printMsg ("  ✅ 生成: " ++ e.1)]) ++
        [Ev.printMsg ("🎉 成功生成 " ++ toString ios_icon_sizes.length ++
           " 个 iOS 图标!"),
         Ev.printMsg ("输出目录: " ++ ios_appicon_dir)]

/-- The files written by a run: the `(path, image)` pairs of its
`writePng` events, in order. -/
def pngWrites (evs : List Ev) : List (String × Img) :=
  evs.filterMap fun e =>
    match e with
    | Ev.writePng p i => some (p, i)
    | _ => none

/-- Number of `Image.open` calls in a trace. -/
def openCount (evs : List Ev) : Nat :=
  (evs.filter fun e =>
    match e with
    | Ev.openImg _ => true
    | _ => false).length

/-- Number of mode conversions (`img.convert`) in a trace. -/
def convertModeCount (evs : List Ev) : Nat :=
  (evs.filter fun e =>
    match e with
    | Ev.convertMode _ => true
    | _ => false).length

/-- An opaque loaded TorchScript model (`torch.jit.load` result).  Only
its identity matters; the pipeline never inspects it. -/
structure TSModel where
  id : Nat
deriving Repr, DecidableEq

/-- Constant `model_path` of `convert_captcha_model.py`. -/
def model_path : String :=
  "AndroidOrigin/app/src/main/assets/model.pt"

/-- Constant `output_path` of `convert_captcha_model.py`. -/
def output_path : String :=
  "BJTUselfServiceApple/BJTUselfServiceApple/CaptchaModel.mlpackage"

/-- Metadata attached to the converted Core ML model.  `outputDescs`
models `mlmodel.output_description` as an association list in which a new
assignment to a key replaces any earlier binding (Python dict-style
assignment). -/
structure MlMeta where
  author : String
  license : String
  short_description : String
  outputDescs : List (String × String)
deriving Repr, DecidableEq

/-- Assignment `mlmodel.output_description[k] = v`: overwrite any earlier binding. -/
def setOutputDesc (descs : List (String × String)) (k v : String) :
    List (String × String) :=
  (descs.filter fun p => p.1 ≠ k) ++ [(k, v)]

/-- Look up the current description of output `k`. -/
def getOutputDesc (descs : List (String × String)) (k : String) :
    Option String :=
  (descs.find? fun p => p.1 = k).map Prod.snd

/-- Environment of one exporter run: outcome of `torch.jit.load` (`none`
models a raise), the shape the forward pass yields in `inspect_model`
(`none` models a raise), and whether `torch.jit.trace`, `ct.convert` and
`mlmodel.save` succeed. -/
structure ConvEnv where
  loadResult : Option TSModel
  forwardShape : Option (List Nat)
  traceOk : Bool
  convertOk : Bool
  saveOk : Bool
deriving Repr, DecidableEq

/-- Result of one exporter run: its effect trace, and the metadata of the
package persisted at `output_path` if one was saved. -/
structure ConvResult where
  events : List Ev
  saved : Option MlMeta
deriving Repr, DecidableEq

/-- Function `convert_model()` of `convert_captcha_model.py`, traced line by line:
load inside `try` (failure prints diagnostics and returns), `model.eval()`,
a `try` around `torch.jit.trace` whose bare `except` falls back to the
loaded model, then a `try` around `ct.convert` + metadata + `save` whose
`except` prints a diagnostic enumerating likely causes. -/
def convert_model (env : ConvEnv) : ConvResult :=
  let pre := [Ev.printMsg "🔄 开始转换 PyTorch 模型为 Core ML...",
              Ev.loadModel model_path]
  match env.loadResult with
  | none =>
      ⟨pre ++ [Ev.printMsg "❌ 无法加载模型: (异常)",
               Ev.printMsg "⚠️  需要原始训练代码来重建模型架构",
               Ev.printMsg "   或提供一个可以直接加载的 .pt 文件"], none⟩
  | some _ =>
      let loaded := pre ++ [Ev.printMsg "✅ 成功加载 TorchScript 模型",
                            Ev.evalCall]
      let traced := loaded ++
        (if env.traceOk then
          [Ev.traceModel, Ev.printMsg "✅ 模型追踪完成"]
        else
          [Ev.traceModel, Ev.printMsg "ℹ️  模型已是 TorchScript 格式"]) ++
        [Ev.printMsg "🔄 转换为 Core ML 格式..."]
      if env.convertOk then
        let meta : MlMeta :=
          { author := "BJTU SelfService Team",
            license := "同 Android 版本",
            short_description :=
              "验证码识别模型 -MultiArray [1, 3, 42, 130] - RGB 验证码张量 (归一化到 0-1)",
            outputDescs :=
              setOutputDesc
                (setOutputDesc [] "logits" "MultiArray30 RGB 验证码图片")
                "logits" "形状 [1, 15, 8] - 8个位置的类别 logits" }
        if env.saveOk then
          ⟨traced ++ [Ev.convertModel, Ev.savePackage output_path,
                      Ev.printMsg "✅ 转换成功!",
                      Ev.printMsg ("📦 模型已保存到: " ++ output_path),
                      Ev.printMsg "📏 输入形状: 1×3×42×130 (C×H×W)",
                      Ev.printMsg "📐 输出形状: 1×15×8 (classes×positions)"],
           some meta⟩
        else
          ⟨traced ++ [Ev.convertModel, Ev.savePackage output_path,
                      Ev.printMsg "❌ 转换失败: (异常)",
                      Ev.printMsg "💡 可能的原因:",
                      Ev.printMsg "   - 模型架构不支持 Core ML",
                      Ev.printMsg "   - 需要调整输入/输出定义",
                      Ev.printMsg "   - PyTorch 版本不兼容"], none⟩
      else
        ⟨traced ++ [Ev.convertModel,
                    Ev.printMsg "❌ 转换失败: (异常)",
                    Ev.printMsg "💡 可能的原因:",
                    Ev.printMsg "   - 模型架构不支持 Core ML",
                    Ev.printMsg "   - 需要调整输入/输出定义",
                    Ev.printMsg "   - PyTorch 版本不兼容"], none⟩

/-- Function `inspect_model()` of `convert_captcha_model.py`: load and run one
forward pass inside `try`; return whether both succeeded. -/
def inspect_model (env : ConvEnv) : Bool × List Ev :=
  let pre := [Ev.printMsg "🔍 检查模型信息...", Ev.loadModel model_path]
  match env.loadResult with
  | none => (false, pre ++ [Ev.printMsg "❌ 检查失败: (异常)"])
  | some _ =>
      match env.forwardShape with
      | none =>
          (false, pre ++ [Ev.printMsg "✅ 模型类型: TorchScript",
                          Ev.forwardCall,
                          Ev.printMsg "❌ 检查失败: (异常)"])
      | some shp =>
          (true, pre ++ [Ev.printMsg "✅ 模型类型: TorchScript",
                         Ev.forwardCall,
                         Ev.printMsg "📏 输入形状: [1, 3, 42, 130]",
                         Ev.printMsg ("📐 输出形状: " ++ toString shp)])

/-- The `__main__` block of `convert_captcha_model.py`: run
`inspect_model`, and only when it returns `True` run `convert_model`. -/
def convertMain (env : ConvEnv) : ConvResult :=
  let hdr := [Ev.printMsg "PyTorch 验证码模型 → Core ML 转换工具"]
  let insp := inspect_model env
  if insp.1 then
    let r := convert_model env
    ⟨hdr ++ insp.2 ++ r.events, r.saved⟩
  else
    ⟨hdr ++ insp.2 ++
      [Ev.printMsg "⚠️  请确保 model.pt 存在且可以正常加载"], none⟩

/-- Paths of `savePackage` events occurring in a trace. -/
def savePaths (evs : List Ev) : List String :=
  evs.filterMap fun e =>
    match e with
    | Ev.savePackage p => some p
    | _ => none

/-- Directories created (`os.makedirs`) in a trace. -/
def mkdirsDirs (evs : List Ev) : List String :=
  evs.filterMap fun e =>
    match e with
    | Ev.mkdirs d => some d
    | _ => none

/-- Whether a trace contains the `Ev.convertModel` call (`ct.convert`). -/
def callsConvert (evs : List Ev) : Bool :=
  evs.any fun e =>
    match e with
    | Ev.convertModel => true
    | _ => false

/-- Number of occurrences of a given event in a trace. -/
def evCount (evs : List Ev) (e : Ev) : Nat :=
  (evs.filter fun x => x = e).length

/-- The writes of a successful icon run, computed: one write per table
entry, at the table path, in mode RGBA, at exactly the table dimensions. -/
theorem pngWrites_generate_icons_eq (img : Img) (s : List String) :
    pngWrites (generate_icons ⟨true, some img, s⟩) =
      ios_icon_sizes.map
        (fun e => (ios_appicon_dir ++ "/" ++ e.1, Img.mk "RGBA" e.2.1 e.2.2)) := by
  obtain ⟨m, w, h⟩ := img
  by_cases hm : m = "RGBA" <;>
    simp [generate_icons, pngWrites, ios_icon_sizes, Img.resize, Img.convert, hm]

/-- C1: on an existing, openable source image the icon generator writes
exactly 22 files — one per entry of `ios_icon_sizes`, at 22 distinct
filenames — and the PNG written for entry `(fn, (w, h))` has pixel width
exactly `w`, pixel height exactly `h` (absolute resize targets) and mode
RGBA, hence an alpha channel, whatever the source image's mode was. -/
theorem C1_icon_outputs_match_table (img : Img) (s : List String) :
    (pngWrites (generate_icons ⟨true, some img, s⟩)).length = 22 ∧
    ios_icon_sizes.length = 22 ∧
    pngWrites (generate_icons ⟨true, some img, s⟩) =
      ios_icon_sizes.map
        (fun e => (ios_appicon_dir ++ "/" ++ e.1, Img.mk "RGBA" e.2.1 e.2.2)) ∧
    ((pngWrites (generate_icons ⟨true, some img, s⟩)).all
      fun p => modeHasAlpha p.2.mode) = true ∧
    (ios_icon_sizes.map Prod.fst).Nodup := by
  refine ⟨?_, by simp [ios_icon_sizes], pngWrites_generate_icons_eq img s, ?_, by decide⟩
  · simp [pngWrites_generate_icons_eq, ios_icon_sizes]
  · simp [pngWrites_generate_icons_eq, ios_icon_sizes, modeHasAlpha]

/-- C5: when the source image path does not exist, `generate_icons` emits
only the missing-file diagnostic: it never opens the image, performs no
resize, and writes nothing into the output directory. -/
theorem C5_icon_missing_source_aborts (op : Option Img) (s : List String) :
    generate_icons ⟨false, op, s⟩ =
      [Ev.printMsg ("❌ 错误: 找不到 Android 图标: " ++ android_icon_path)] ∧
    pngWrites (generate_icons ⟨false, op, s⟩) = [] ∧
    openCount (generate_icons ⟨false, op, s⟩) = 0 := by
  refine ⟨by simp [generate_icons], ?_, ?_⟩ <;>
    simp [generate_icons, pngWrites, openCount]

/-- C6: a second run on the same source image behaves identically to the
first whatever files earlier runs left in the output directory: the
trace, the written paths and the written dimensions coincide, and both
equal the fixed table, so the second run overwrites the same paths with
the same-dimensioned outputs. -/
theorem C6_icon_rerun_idempotent (img : Img) (s₁ s₂ : List String) :
    generate_icons ⟨true, some img, s₁⟩ = generate_icons ⟨true, some img, s₂⟩ ∧
    (pngWrites (generate_icons ⟨true, some img, s₁⟩)).map
        (fun p => (p.1, p.2.width, p.2.height)) =
      ios_icon_sizes.map (fun e => (ios_appicon_dir ++ "/" ++ e.1, e.2.1, e.2.2)) := by
  refine ⟨rfl, ?_⟩
  simp [pngWrites_generate_icons_eq, ios_icon_sizes]

/-- C7 counterexample: the source mode `"LA"` has an alpha channel, yet
the generator converts the image anyway (its test is `mode != 'RGBA'`,
not "lacks an alpha channel"), refuting "converts if and only if the
mode lacks an alpha channel". -/
theorem C7_cex_alpha_mode_still_converted :
    ¬ ((1 ≤ convertModeCount (generate_icons ⟨true, some ⟨"LA", 10, 10⟩, []⟩)) ↔
        modeHasAlpha "LA" = false) := by
  decide

/-- C7 amended: the generator opens the source image exactly once, and
converts it to RGBA if and only if its mode is not literally `"RGBA"` —
so alpha-bearing modes other than RGBA (such as `"LA"`) are converted
too, not used unconverted. -/
theorem C7_icon_open_once_convert_unless_rgba (img : Img) (s : List String) :
    openCount (generate_icons ⟨true, some img, s⟩) = 1 ∧
    convertModeCount (generate_icons ⟨true, some img, s⟩) =
      (if img.mode = "RGBA" then 0 else 1) := by
  obtain ⟨m, w, h⟩ := img
  by_cases hm : m = "RGBA" <;>
    simp [generate_icons, openCount, convertModeCount, ios_icon_sizes, hm]

/-- C10: every entry of the 22-entry size table has width equal to
height, so every PNG the generator writes is square. -/
theorem C10_icon_table_square :
    (ios_icon_sizes.all fun e => e.2.1 == e.2.2) = true ∧
    ∀ (img : Img) (s : List String),
      ((pngWrites (generate_icons ⟨true, some img, s⟩)).all
        fun p => p.2.width == p.2.height) = true := by
  refine ⟨by decide, fun img s => ?_⟩
  simp [pngWrites_generate_icons_eq, ios_icon_sizes]

/-- C2 counterexample: a model that loads and whose forward pass yields
shape (1, 15, 8) can still fail at `ct.convert`; the exporter then prints
a diagnostic and produces no package at the output path — so load +
forward success alone do not guarantee a converted package. -/
theorem C2_cex_loadable_model_convert_fails :
    (⟨some ⟨0⟩, some [1, 15, 8], true, false, true⟩ : ConvEnv).loadResult.isSome = true ∧
    (⟨some ⟨0⟩, some [1, 15, 8], true, false, true⟩ : ConvEnv).forwardShape = some [1, 15, 8] ∧
    (convertMain ⟨some ⟨0⟩, some [1, 15, 8], true, false, true⟩).saved = none ∧
    savePaths (convertMain ⟨some ⟨0⟩, some [1, 15, 8], true, false, true⟩).events = [] :=
  ⟨rfl, rfl, rfl, rfl⟩

/-- C2 amended: for a model artifact that loads and whose forward pass
yields shape (1, 15, 8), when the conversion stage (the `ct.convert` call
and the `save` inside the same `try`) also succeeds, the exporter saves a
package exactly at the fixed output path and no exception escapes (every
failure branch of the embedding ends in printed diagnostics instead). -/
theorem C2_export_saves_package_when_conversion_succeeds
    (m : TSModel) (tOk : Bool) :
    (convertMain ⟨some m, some [1, 15, 8], tOk, true, true⟩).saved.isSome = true ∧
    savePaths (convertMain ⟨some m, some [1, 15, 8], tOk, true, true⟩).events =
      [output_path] := by
  cases tOk <;>
    simp [convertMain, convert_model, inspect_model, savePaths]

/-- C3: when `torch.jit.load` fails, `convert_model` prints its
diagnostic and returns: `ct.convert` is never invoked, nothing is saved,
and the same holds for the whole `__main__` run (which then skips
`convert_model` entirely), so the state at the output path is unchanged. -/
theorem C3_load_failure_skips_conversion
    (fs : Option (List Nat)) (t c sv : Bool) :
    (convert_model ⟨none, fs, t, c, sv⟩).saved = none ∧
    callsConvert (convert_model ⟨none, fs, t, c, sv⟩).events = false ∧
    savePaths (convert_model ⟨none, fs, t, c, sv⟩).events = [] ∧
    Ev.printMsg "❌ 无法加载模型: (异常)" ∈ (convert_model ⟨none, fs, t, c, sv⟩).events ∧
    (convertMain ⟨none, fs, t, c, sv⟩).saved = none ∧
    callsConvert (convertMain ⟨none, fs, t, c, sv⟩).events = false ∧
    savePaths (convertMain ⟨none, fs, t, c, sv⟩).events = [] := by
  refine ⟨rfl, rfl, rfl, ?_, rfl, rfl, rfl⟩
  simp [convert_model]

/-- C4 counterexample: with a loaded model whose tracing fails, the bare
`except:` falls back to the loaded model and the run proceeds to
`ct.convert` — and here even saves a package — refuting "a failure during
tracing terminates the run without proceeding to conversion". -/
theorem C4_cex_trace_failure_still_converts :
    (⟨some ⟨0⟩, some [1, 15, 8], false, true, true⟩ : ConvEnv).traceOk = false ∧
    callsConvert
      (convert_model ⟨some ⟨0⟩, some [1, 15, 8], false, true, true⟩).events = true ∧
    (convert_model ⟨some ⟨0⟩, some [1, 15, 8], false, true, true⟩).saved.isSome = true :=
  ⟨rfl, rfl, rfl⟩

/-- C4 amended: load and convert failures are each caught, print
diagnostics (the convert diagnostic enumerates likely causes) and end the
run with nothing saved and no retry — every pipeline stage is invoked at
most once per run — but a tracing failure is caught silently: the run
falls back to the loaded model and still proceeds to conversion. -/
theorem C4_failures_caught_single_attempt
    (m : TSModel) (fs : Option (List Nat)) (t c sv : Bool) :
    (convert_model ⟨none, fs, t, c, sv⟩).saved = none ∧
    callsConvert (convert_model ⟨none, fs, t, c, sv⟩).events = false ∧
    (convert_model ⟨some m, fs, t, false, sv⟩).saved = none ∧
    Ev.printMsg "💡 可能的原因:" ∈ (convert_model ⟨some m, fs, t, false, sv⟩).events ∧
    callsConvert (convert_model ⟨some m, fs, false, c, sv⟩).events = true ∧
    evCount (convert_model ⟨some m, fs, t, c, sv⟩).events (Ev.loadModel model_path) = 1 ∧
    evCount (convert_model ⟨some m, fs, t, c, sv⟩).events Ev.traceModel = 1 ∧
    evCount (convert_model ⟨some m, fs, t, c, sv⟩).events Ev.convertModel = 1 ∧
    evCount (convert_model ⟨none, fs, t, c, sv⟩).events Ev.traceModel = 0 := by
  refine ⟨rfl, rfl, ?_, ?_, ?_, ?_, ?_, ?_, ?_⟩ <;>
    cases t <;> cases c <;> cases sv <;>
    simp [convert_model, callsConvert, evCount, model_path, List.filter]

/-- C8: on a successful conversion the exporter's saved package carries
the static author, license and description metadata and the only saved
path is the fixed `output_path`; the exporter never creates a directory
in any run, while the icon generator's very first effect on an existing
source is creating its destination directory (with parents,
`exist_ok=True`) and it creates no other directory; and each tool's file
writes touch only its own fixed paths — the exporter writes no PNGs and
the generator's written paths are either none or exactly the 22 table
paths under the destination directory. -/
theorem C8_metadata_and_disk_frame
    (m : TSModel) (fs : Option (List Nat)) (tOk : Bool)
    (lr : Option TSModel) (fs2 : Option (List Nat)) (t2 c2 sv2 : Bool)
    (img : Img) (s : List String) (env2 : IconEnv) :
    ((convert_model ⟨some m, fs, tOk, true, true⟩).saved.map MlMeta.author) =
      some "BJTU SelfService Team" ∧
    ((convert_model ⟨some m, fs, tOk, true, true⟩).saved.map MlMeta.license) =
      some "同 Android 版本" ∧
    ((convert_model ⟨some m, fs, tOk, true, true⟩).saved.map
       fun md => (getOutputDesc md.outputDescs "logits").isSome) = some true ∧
    savePaths (convert_model ⟨some m, fs, tOk, true, true⟩).events = [output_path] ∧
    mkdirsDirs (convert_model ⟨lr, fs2, t2, c2, sv2⟩).events = [] ∧
    (savePaths (convert_model ⟨lr, fs2, t2, c2, sv2⟩).events = [] ∨
      savePaths (convert_model ⟨lr, fs2, t2, c2, sv2⟩).events = [output_path]) ∧
    pngWrites (convert_model ⟨lr, fs2, t2, c2, sv2⟩).events = [] ∧
    (generate_icons ⟨true, some img, s⟩).head? = some (Ev.mkdirs ios_appicon_dir) ∧
    mkdirsDirs (generate_icons ⟨true, some img, s⟩) = [ios_appicon_dir] ∧
    savePaths (generate_icons env2) = [] ∧
    ((pngWrites (generate_icons env2)).map Prod.fst = [] ∨
      (pngWrites (generate_icons env2)).map Prod.fst =
        ios_icon_sizes.map fun e => ios_appicon_dir ++ "/" ++ e.1) := by
  obtain ⟨se2, or2, ex2⟩ := env2
  refine ⟨?_, ?_, ?_, ?_, ?_, ?_, ?_, ?_, ?_, ?_, ?_⟩
  · cases tOk <;> rfl
  · cases tOk <;> rfl
  · cases tOk <;>
      simp [convert_model, getOutputDesc, setOutputDesc]
  · cases tOk <;> simp [convert_model, savePaths]
  · cases lr <;> cases t2 <;> cases c2 <;> cases sv2 <;>
      simp [convert_model, mkdirsDirs]
  · cases lr <;> cases t2 <;> cases c2 <;> cases sv2 <;>
      simp [convert_model, savePaths]
  · cases lr <;> cases t2 <;> cases c2 <;> cases sv2 <;>
      simp [convert_model, pngWrites]
  · by_cases hm : img.mode = "RGBA" <;> simp [generate_icons, hm]
  · obtain ⟨mo, w, h⟩ := img
    cases or : (some (Img.mk mo w h) : Option Img) <;>
      by_cases hm : mo = "RGBA" <;>
      simp [generate_icons, mkdirsDirs, ios_icon_sizes, hm]
  · cases se2 <;> cases or2 <;>
      simp [generate_icons, savePaths, ios_icon_sizes]
  · cases se2
    · left
      simp [generate_icons, pngWrites]
    · cases or2 with
      | none => left; simp [generate_icons, pngWrites]
      | some i =>
          right
          simp [pngWrites_generate_icons_eq, ios_icon_sizes]

/-- C9: the exporter assigns `output_description["logits"]` twice in a
row, so in every saved package the description of `"logits"` is exactly
the second string `"形状 [1, 15, 8] - 8个位置的类别 logits"`, and it is
the only output description present — the first string
(`"MultiArray30 RGB 验证码图片"`) is overwritten and never persisted. -/
theorem C9_logits_description_is_second_assignment
    (m : TSModel) (fs : Option (List Nat)) (tOk : Bool) :
    ((convert_model ⟨some m, fs, tOk, true, true⟩).saved.map
       fun md => getOutputDesc md.outputDescs "logits") =
      some (some "形状 [1, 15, 8] - 8个位置的类别 logits") ∧
    ((convert_model ⟨some m, fs, tOk, true, true⟩).saved.map
       fun md => md.outputDescs) =
      some [("logits", "形状 [1, 15, 8] - 8个位置的类别 logits")] := by
  cases tOk <;>
    simp [convert_model, getOutputDesc, setOutputDesc]
